import Mathlib

/-!
Verification of the neuropod config schema engine
(source/neuropods/python/backends/config_utils.py).

The source is Python 2 (it uses basestring and long), so:
  - strings and unicode strings are modelled by one constructor PyVal.str;
  - bool is a subclass of int, so isinstance(x, (int, long)) is true for
    booleans; the model keeps bool a separate constructor and makes the
    isinstance predicate accept it, mirroring the Python subtyping;
  - numpy dtype name resolution is modelled by a finite alias table
    (see npDtypeName below).
-/

namespace Neuropod

/-- Dynamic Python values, as far as the config engine inspects them. -/
inductive PyVal where
  | none
  | bool (b : Bool)
  | int (n : Int)
  | float (q : ℚ)
  | str (s : String)
  | list (xs : List PyVal)
  | tuple (xs : List PyVal)
  deriving Repr

mutual

/-- Decidable equality on PyVal, written out because the automatic
derivation does not handle the nested list occurrence. -/
def decEqPyVal : (a b : PyVal) → Decidable (a = b)
  | .none, .none => isTrue rfl
  | .none, .bool _ => isFalse (fun h => nomatch h)
  | .none, .int _ => isFalse (fun h => nomatch h)
  | .none, .float _ => isFalse (fun h => nomatch h)
  | .none, .str _ => isFalse (fun h => nomatch h)
  | .none, .list _ => isFalse (fun h => nomatch h)
  | .none, .tuple _ => isFalse (fun h => nomatch h)
  | .bool _, .none => isFalse (fun h => nomatch h)
  | .bool a, .bool b =>
      if h : a = b then isTrue (by rw [h]) else isFalse (fun hh => h (by injection hh))
  | .bool _, .int _ => isFalse (fun h => nomatch h)
  | .bool _, .float _ => isFalse (fun h => nomatch h)
  | .bool _, .str _ => isFalse (fun h => nomatch h)
  | .bool _, .list _ => isFalse (fun h => nomatch h)
  | .bool _, .tuple _ => isFalse (fun h => nomatch h)
  | .int _, .none => isFalse (fun h => nomatch h)
  | .int _, .bool _ => isFalse (fun h => nomatch h)
  | .int a, .int b =>
      if h : a = b then isTrue (by rw [h]) else isFalse (fun hh => h (by injection hh))
  | .int _, .float _ => isFalse (fun h => nomatch h)
  | .int _, .str _ => isFalse (fun h => nomatch h)
  | .int _, .list _ => isFalse (fun h => nomatch h)
  | .int _, .tuple _ => isFalse (fun h => nomatch h)
  | .float _, .none => isFalse (fun h => nomatch h)
  | .float _, .bool _ => isFalse (fun h => nomatch h)
  | .float _, .int _ => isFalse (fun h => nomatch h)
  | .float a, .float b =>
      if h : a = b then isTrue (by rw [h]) else isFalse (fun hh => h (by injection hh))
  | .float _, .str _ => isFalse (fun h => nomatch h)
  | .float _, .list _ => isFalse (fun h => nomatch h)
  | .float _, .tuple _ => isFalse (fun h => nomatch h)
  | .str _, .none => isFalse (fun h => nomatch h)
  | .str _, .bool _ => isFalse (fun h => nomatch h)
  | .str _, .int _ => isFalse (fun h => nomatch h)
  | .str _, .float _ => isFalse (fun h => nomatch h)
  | .str a, .str b =>
      if h : a = b then isTrue (by rw [h]) else isFalse (fun hh => h (by injection hh))
  | .str _, .list _ => isFalse (fun h => nomatch h)
  | .str _, .tuple _ => isFalse (fun h => nomatch h)
  | .list _, .none => isFalse (fun h => nomatch h)
  | .list _, .bool _ => isFalse (fun h => nomatch h)
  | .list _, .int _ => isFalse (fun h => nomatch h)
  | .list _, .float _ => isFalse (fun h => nomatch h)
  | .list _, .str _ => isFalse (fun h => nomatch h)
  | .list xs, .list ys =>
      match decEqPyValList xs ys with
      | isTrue h => isTrue (by rw [h])
      | isFalse h => isFalse (fun hh => h (by injection hh))
  | .list _, .tuple _ => isFalse (fun h => nomatch h)
  | .tuple _, .none => isFalse (fun h => nomatch h)
  | .tuple _, .bool _ => isFalse (fun h => nomatch h)
  | .tuple _, .int _ => isFalse (fun h => nomatch h)
  | .tuple _, .float _ => isFalse (fun h => nomatch h)
  | .tuple _, .str _ => isFalse (fun h => nomatch h)
  | .tuple _, .list _ => isFalse (fun h => nomatch h)
  | .tuple xs, .tuple ys =>
      match decEqPyValList xs ys with
      | isTrue h => isTrue (by rw [h])
      | isFalse h => isFalse (fun hh => h (by injection hh))

/-- Decidable equality on lists of PyVal, mutual with decEqPyVal. -/
def decEqPyValList : (a b : List PyVal) → Decidable (a = b)
  | [], [] => isTrue rfl
  | [], _ :: _ => isFalse (fun h => nomatch h)
  | _ :: _, [] => isFalse (fun h => nomatch h)
  | x :: xs, y :: ys =>
      match decEqPyVal x y, decEqPyValList xs ys with
      | isTrue h1, isTrue h2 => isTrue (by rw [h1, h2])
      | isFalse h1, _ => isFalse (fun hh => h1 (by injection hh))
      | _, isFalse h2 => isFalse (fun hh => h2 (by injection hh))

end

instance : DecidableEq PyVal := decEqPyVal

/-- Python isinstance(x, basestring): str and unicode values. -/
def pyIsStr : PyVal → Bool
  | .str _ => true
  | _ => false

/-- Python isinstance(x, bool). -/
def pyIsBool : PyVal → Bool
  | .bool _ => true
  | _ => false

/-- Python isinstance(x, (int, long)); true for booleans as well, since in
Python bool is a subclass of int. -/
def pyIsInt : PyVal → Bool
  | .bool _ => true
  | .int _ => true
  | _ => false

/-- Python x > 0 on values that passed isinstance(x, (int, long)):
True counts as 1 and False as 0. -/
def pyGtZero : PyVal → Bool
  | .int n => 0 < n
  | .bool b => b
  | _ => false

/-- Python isinstance(x, (list, tuple)). -/
def pyIsSeq : PyVal → Bool
  | .list _ => true
  | .tuple _ => true
  | _ => false

/-- Python x is None. -/
def pyIsNone : PyVal → Bool
  | .none => true
  | _ => false

/-- The fixed list ALLOWED_DTYPES from the source. -/
def ALLOWED_DTYPES : List String :=
  ["float32", "float64", "string",
   "int8", "int16", "int32", "int64",
   "uint8", "uint16", "uint32", "uint64"]

/-- Python membership v in l for a list l of strings: equality of a
non-string value with a string is always false, a string compares by
content. -/
def pyInStrList (v : PyVal) (l : List String) : Bool :=
  match v with
  | .str s => l.contains s
  | _ => false

/-- The validation errors the source raises (each a ValueError with a
distinct message), named after the taxonomy of the specification. -/
inductive Err where
  | invalidDtype (got : PyVal)
  | invalidFieldType (field : String) (got : PyVal)
  | invalidDimension (got : PyVal)
  | unrecognizedDtype (got : PyVal)
  deriving Repr, DecidableEq

/-- One tensor spec item, the dict with keys name, dtype, shape. -/
structure SpecItem where
  name : PyVal
  dtype : PyVal
  shape : PyVal
  deriving Repr, DecidableEq

/-- The inner loop of validate_tensor_spec over the items of a shape:
a dimension is kept when it is None, a positive non-boolean integer
(the bool check is done before the integer check), or a string. -/
def dimOk (dim : PyVal) : Bool :=
  let is_uint := !pyIsBool dim && pyIsInt dim && pyGtZero dim
  pyIsNone dim || is_uint || pyIsStr dim

/-- The for dim in shape loop: raises on the first dimension that is not
None, a string, or a positive non-boolean integer. -/
def validateDims : List PyVal → Except Err Unit
  | [] => .ok ()
  | d :: ds => if dimOk d then validateDims ds else .error (.invalidDimension d)

/-- The per-item checks of validate_tensor_spec, in source order:
dtype membership, then name type, then shape type, then each dimension. -/
def validateItem (item : SpecItem) : Except Err Unit :=
  if !pyInStrList item.dtype ALLOWED_DTYPES then
    .error (.invalidDtype item.dtype)
  else if !pyIsStr item.name then
    .error (.invalidFieldType "name" item.name)
  else
    match item.shape with
    | .list ds => validateDims ds
    | .tuple ds => validateDims ds
    | _ => .error (.invalidFieldType "shape" item.shape)

/-- validate_tensor_spec: for each item in order, apply the per-item
checks, raising the first violation. -/
def validate_tensor_spec : List SpecItem → Except Err Unit
  | [] => .ok ()
  | item :: rest => do
      validateItem item
      validate_tensor_spec rest

/-- The top-level config dict with keys name, platform, input_spec,
output_spec. -/
structure Config where
  name : PyVal
  platform : PyVal
  input_spec : List SpecItem
  output_spec : List SpecItem
  deriving Repr, DecidableEq

/-- validate_neuropod_config: name must be a string, then platform must be
a string, then the input spec and then the output spec are validated. -/
def validate_neuropod_config (config : Config) : Except Err Unit :=
  if !pyIsStr config.name then
    .error (.invalidFieldType "name" config.name)
  else if !pyIsStr config.platform then
    .error (.invalidFieldType "platform" config.platform)
  else do
    validate_tensor_spec config.input_spec
    validate_tensor_spec config.output_spec

/-- Model of numpy np.dtype(v).name as called by canonicalize_tensor_spec,
under Python 2 numpy (the source uses basestring and long). The table is
finite, covering the names this development reasons about; a name outside
the table is treated like a name numpy cannot resolve (np.dtype raises
TypeError there, the UnrecognizedDtype error of the specification).
Facts modelled from numpy: each of the twelve ALLOWED_DTYPES names
resolves to itself — in particular np.dtype of the name string is the
unsized bytes dtype, whose .name under Python 2 is the word string
itself; the aliases double and the name float resolve to float64, single
to float32, half to float16; float16 and bool resolve to themselves and
lie outside ALLOWED_DTYPES; np.dtype(None) is the default float64. -/
def npDtypeName : PyVal → Option String
  | .none => some "float64"
  | .str s =>
      if ALLOWED_DTYPES.contains s then some s
      else if s = "double" || s = "float" then some "float64"
      else if s = "single" then some "float32"
      else if s = "half" || s = "float16" then some "float16"
      else if s = "bool" then some "bool"
      else Option.none
  | _ => Option.none

/-- The names the modelled np.dtype resolution can return. -/
def npCanonicalNames : List String :=
  ALLOWED_DTYPES ++ ["float16", "bool"]

/-- The Dtype Canonicalizer of the specification, section 4.1: the inline
np.dtype(name).name call of canonicalize_tensor_spec on one name string. -/
def canonicalize_dtype (s : String) : Except Err String :=
  match npDtypeName (.str s) with
  | some nm => .ok nm
  | Option.none => .error (.unrecognizedDtype (.str s))

/-- canonicalize_tensor_spec: builds a new list of items whose dtype is
replaced by np.dtype(dtype).name, name and shape copied over; raises at
the first item whose dtype numpy cannot resolve. -/
def canonicalize_tensor_spec : List SpecItem → Except Err (List SpecItem)
  | [] => .ok []
  | item :: rest =>
      match npDtypeName item.dtype with
      | Option.none => .error (.unrecognizedDtype item.dtype)
      | some nm => do
          let rest2 ← canonicalize_tensor_spec rest
          .ok ({ name := item.name, dtype := .str nm, shape := item.shape } :: rest2)

/-- The state of config.json inside the package directory: absent, created
but empty (opened for writing, nothing written), or holding a JSON
document with the four config keys. -/
inductive FileState where
  | absent
  | empty
  | content (c : Config)
  deriving Repr, DecidableEq

mutual

/-- Effect of a JSON dump followed by a load on one value:
tuples serialize as arrays and parse back as lists; None, booleans,
integers and strings are fixed. (Validated configs contain no floats, so
the float case is irrelevant and kept fixed as well.) -/
def jsonRT : PyVal → PyVal
  | .tuple xs => .list (jsonRTList xs)
  | .list xs => .list (jsonRTList xs)
  | .none => .none
  | .bool b => .bool b
  | .int n => .int n
  | .float q => .float q
  | .str s => .str s

/-- jsonRT applied to every element of a list. -/
def jsonRTList : List PyVal → List PyVal
  | [] => []
  | x :: xs => jsonRT x :: jsonRTList xs

end

/-- jsonRT applied to every field of a spec item. -/
def jsonRTItem (it : SpecItem) : SpecItem :=
  { name := jsonRT it.name, dtype := jsonRT it.dtype, shape := jsonRT it.shape }

/-- jsonRT applied to a whole config document: what json.load gives back
after json.dump of the config. -/
def jsonRTConfig (c : Config) : Config :=
  { name := jsonRT c.name, platform := jsonRT c.platform,
    input_spec := c.input_spec.map jsonRTItem,
    output_spec := c.output_spec.map jsonRTItem }

/-- write_neuropod_config. The source opens config.json with mode w
first, which creates the file, or truncates an existing one, before
anything else runs; inside the with block it canonicalizes the input
spec, then the output spec, assembles the config dict, validates it, and
only then dumps the JSON text. An error raised anywhere inside the block
leaves the file created and empty. The first argument is the prior state
of config.json; the result is the new state and the outcome. -/
def write_neuropod_config (_neuropod_path : FileState) (model_name platform : PyVal)
    (input_spec output_spec : List SpecItem) : FileState × Except Err Unit :=
  match canonicalize_tensor_spec input_spec with
  | .error e => (FileState.empty, .error e)
  | .ok ci =>
      match canonicalize_tensor_spec output_spec with
      | .error e => (FileState.empty, .error e)
      | .ok co =>
          let config : Config :=
            { name := model_name, platform := platform,
              input_spec := ci, output_spec := co }
          match validate_neuropod_config config with
          | .error e => (FileState.empty, .error e)
          | .ok _ => (FileState.content (jsonRTConfig config), .ok ())

/-- Errors of the read path: missing file, unparsable file, or a parsed
config the validator rejects. -/
inductive ReadErr where
  | noFile
  | parseError
  | invalid (e : Err)
  deriving Repr, DecidableEq

/-- read_neuropod_config: opens config.json (IOError when absent), parses
it as JSON (an empty file is not valid JSON), validates the parsed config
and returns it. -/
def read_neuropod_config : FileState → Except ReadErr Config
  | .absent => .error .noFile
  | .empty => .error .parseError
  | .content c =>
      match validate_neuropod_config c with
      | .ok _ => .ok c
      | .error e => .error (.invalid e)

/-! Helper lemmas about the validators. -/

/-- Unfolding of validate_tensor_spec on a cons cell. -/
lemma vts_cons (it : SpecItem) (rest : List SpecItem) :
    validate_tensor_spec (it :: rest)
      = Except.bind (validateItem it) (fun _ => validate_tensor_spec rest) := rfl

/-- A valid head item is skipped. -/
lemma vts_cons_ok {it : SpecItem} {rest : List SpecItem}
    (h : validateItem it = .ok ()) :
    validate_tensor_spec (it :: rest) = validate_tensor_spec rest := by
  rw [vts_cons, h]
  rfl

/-- An invalid head item decides the result. -/
lemma vts_cons_err {it : SpecItem} {rest : List SpecItem} {e : Err}
    (h : validateItem it = .error e) :
    validate_tensor_spec (it :: rest) = .error e := by
  rw [vts_cons, h]
  rfl

/-- validateDims succeeds exactly when every dimension is acceptable. -/
lemma validateDims_ok_iff (ds : List PyVal) :
    validateDims ds = .ok () ↔ ∀ d ∈ ds, dimOk d = true := by
  induction ds with
  | nil => simp [validateDims]
  | cons d ds ih =>
      by_cases h : dimOk d = true
      · simp [validateDims, h, ih]
      · simp [validateDims, h]

/-- validateItem succeeds exactly when the dtype is allowed, the name is a
string, and the shape is a list or tuple of acceptable dimensions. -/
lemma validateItem_ok_iff (it : SpecItem) :
    validateItem it = .ok () ↔
      pyInStrList it.dtype ALLOWED_DTYPES = true
      ∧ pyIsStr it.name = true
      ∧ ∃ ds, (it.shape = PyVal.list ds ∨ it.shape = PyVal.tuple ds)
          ∧ ∀ d ∈ ds, dimOk d = true := by
  obtain ⟨nm, dt, sh⟩ := it
  by_cases h1 : pyInStrList dt ALLOWED_DTYPES = true
  · by_cases h2 : pyIsStr nm = true
    · cases sh with
      | list ds => simp [validateItem, h1, h2, validateDims_ok_iff]
      | tuple ds => simp [validateItem, h1, h2, validateDims_ok_iff]
      | none => simp [validateItem, h1, h2]
      | bool b => simp [validateItem, h1, h2]
      | int n => simp [validateItem, h1, h2]
      | float q => simp [validateItem, h1, h2]
      | str s => simp [validateItem, h1, h2]
    · simp [validateItem, h1, h2]
  · simp [validateItem, h1]

/-- validate_tensor_spec succeeds exactly when every item passes. -/
lemma vts_ok_iff (spec : List SpecItem) :
    validate_tensor_spec spec = .ok () ↔ ∀ it ∈ spec, validateItem it = .ok () := by
  induction spec with
  | nil => simp [validate_tensor_spec]
  | cons it rest ih =>
      cases hv : validateItem it with
      | ok u =>
          cases u
          rw [vts_cons_ok hv]
          simp [hv, ih]
      | error e =>
          rw [vts_cons_err hv]
          constructor
          · intro h
            exact nomatch h
          · intro h
            have hit := h it (by simp)
            rw [hit] at hv
            exact nomatch hv

/-- A prefix of valid items does not affect the outcome on the rest. -/
lemma vts_append {pre : List SpecItem} (post : List SpecItem)
    (h : validate_tensor_spec pre = .ok ()) :
    validate_tensor_spec (pre ++ post) = validate_tensor_spec post := by
  induction pre with
  | nil => rfl
  | cons it rest ih =>
      have hit : validateItem it = .ok () := by
        rw [vts_ok_iff] at h
        exact h it (by simp)
      have hrest : validate_tensor_spec rest = .ok () := by
        rw [vts_ok_iff] at h ⊢
        exact fun a ha => h a (by simp [ha])
      rw [List.cons_append, vts_cons_ok hit]
      exact ih hrest

/-- Reduction of an Except bind on a success. -/
lemma except_bind_ok {e a : Type} (f : Unit → Except e a) :
    Except.bind (Except.ok ()) f = f () := rfl

/-- Reduction of an Except bind on an error. -/
lemma except_bind_err {e a : Type} (x : e) (f : Unit → Except e a) :
    Except.bind (Except.error x) f = Except.error x := rfl

/-- When name and platform are strings, validate_neuropod_config is the
sequencing of the two spec validations. -/
lemma vnc_bind {c : Config} (h1 : pyIsStr c.name = true)
    (h2 : pyIsStr c.platform = true) :
    validate_neuropod_config c
      = Except.bind (validate_tensor_spec c.input_spec)
          (fun _ => validate_tensor_spec c.output_spec) := by
  unfold validate_neuropod_config
  rw [h1, h2]
  rfl

/-- validate_neuropod_config succeeds exactly when name and platform are
strings and both spec sequences validate. -/
lemma validate_config_ok_iff (c : Config) :
    validate_neuropod_config c = .ok () ↔
      pyIsStr c.name = true ∧ pyIsStr c.platform = true
      ∧ validate_tensor_spec c.input_spec = .ok ()
      ∧ validate_tensor_spec c.output_spec = .ok () := by
  by_cases h1 : pyIsStr c.name = true
  · by_cases h2 : pyIsStr c.platform = true
    · rw [vnc_bind h1 h2]
      cases hv : validate_tensor_spec c.input_spec with
      | ok u =>
          cases u
          rw [except_bind_ok]
          simp [h1, h2]
      | error e =>
          rw [except_bind_err]
          simp [h1, h2]
    · simp [validate_neuropod_config, h1, h2]
  · simp [validate_neuropod_config, h1]

/-! Lemmas about the JSON round trip. -/

/-- jsonRT keeps string values fixed. -/
lemma jsonRT_of_str {v : PyVal} (h : pyIsStr v = true) : jsonRT v = v := by
  cases v <;> simp [pyIsStr] at h ⊢ <;> rfl

/-- jsonRT keeps acceptable dimensions fixed: they are None, strings or
integers, none of which is changed by a dump and load. -/
lemma dimOk_jsonRT {d : PyVal} (h : dimOk d = true) : jsonRT d = d := by
  cases d <;> simp [dimOk, pyIsNone, pyIsBool, pyIsInt, pyGtZero, pyIsStr] at h ⊢ <;> rfl

/-- jsonRT keeps a list of acceptable dimensions fixed. -/
lemma jsonRTList_of_dims {ds : List PyVal} (h : ∀ d ∈ ds, dimOk d = true) :
    jsonRTList ds = ds := by
  induction ds with
  | nil => rfl
  | cons d ds ih =>
      rw [jsonRTList, dimOk_jsonRT (h d (by simp)), ih (fun a ha => h a (by simp [ha]))]

/-- A spec item that validates is turned by the JSON round trip into the
same item with its shape container normalized to a list; that item
validates as well. -/
lemma validateItem_jsonRT {it : SpecItem} (h : validateItem it = .ok ()) :
    validateItem (jsonRTItem it) = .ok ()
    ∧ (jsonRTItem it).name = it.name ∧ (jsonRTItem it).dtype = it.dtype := by
  rw [validateItem_ok_iff] at h
  obtain ⟨h1, h2, ds, hsh, hds⟩ := h
  have hdt : pyIsStr it.dtype = true := by
    cases hd : it.dtype <;> rw [hd] at h1 <;> simp [pyInStrList] at h1 <;> rfl
  have hname : (jsonRTItem it).name = it.name := jsonRT_of_str h2
  have hdty : (jsonRTItem it).dtype = it.dtype := jsonRT_of_str hdt
  refine ⟨?_, hname, hdty⟩
  rw [validateItem_ok_iff, hname, hdty]
  refine ⟨h1, h2, ds, ?_, hds⟩
  left
  show jsonRT it.shape = PyVal.list ds
  cases hsh with
  | inl hl => rw [hl, jsonRT, jsonRTList_of_dims hds]
  | inr hr => rw [hr, jsonRT, jsonRTList_of_dims hds]

/-- A spec sequence that validates still validates after the JSON round
trip. -/
lemma vts_jsonRT {s : List SpecItem} (h : validate_tensor_spec s = .ok ()) :
    validate_tensor_spec (s.map jsonRTItem) = .ok () := by
  rw [vts_ok_iff] at h ⊢
  intro it hit
  rw [List.mem_map] at hit
  obtain ⟨a, ha, rfl⟩ := hit
  exact (validateItem_jsonRT (h a ha)).1

/-- A config that validates still validates after the JSON round trip. -/
lemma validate_config_jsonRT {c : Config} (h : validate_neuropod_config c = .ok ()) :
    validate_neuropod_config (jsonRTConfig c) = .ok () := by
  rw [validate_config_ok_iff] at h ⊢
  obtain ⟨h1, h2, h3, h4⟩ := h
  refine ⟨?_, ?_, ?_, ?_⟩
  · show pyIsStr (jsonRT c.name) = true
    rw [jsonRT_of_str h1]
    exact h1
  · show pyIsStr (jsonRT c.platform) = true
    rw [jsonRT_of_str h2]
    exact h2
  · exact vts_jsonRT h3
  · exact vts_jsonRT h4

/-- On a validated item whose shape is already a list, the JSON round
trip is the identity. -/
lemma jsonRTItem_id {it : SpecItem} (h : validateItem it = .ok ())
    (hl : ∃ ds, it.shape = PyVal.list ds) : jsonRTItem it = it := by
  rw [validateItem_ok_iff] at h
  obtain ⟨h1, h2, ds, hsh, hds⟩ := h
  obtain ⟨ds2, hl⟩ := hl
  have hdt : pyIsStr it.dtype = true := by
    cases hd : it.dtype <;> rw [hd] at h1 <;> simp [pyInStrList] at h1 <;> rfl
  have hds2 : ∀ d ∈ ds2, dimOk d = true := by
    cases hsh with
    | inl hs => rw [hl] at hs; injection hs with hs; rw [hs]; exact hds
    | inr hs => rw [hl] at hs; exact nomatch hs
  obtain ⟨nm, dt, sh⟩ := it
  simp only at hl
  simp only [jsonRTItem, SpecItem.mk.injEq]
  refine ⟨jsonRT_of_str h2, jsonRT_of_str hdt, ?_⟩
  rw [hl, jsonRT, jsonRTList_of_dims hds2]

/-! Concrete sample values used by witnesses and counterexamples. -/

/-- A well-formed spec item with a list shape. -/
def sampleItem : SpecItem :=
  ⟨PyVal.str "x", PyVal.str "float32", PyVal.list [PyVal.none]⟩

/-- A well-formed config. -/
def sampleConfig : Config :=
  ⟨PyVal.str "m", PyVal.str "python", [sampleItem], [sampleItem]⟩

/-- A well-formed spec item whose shape is a tuple, as in the docstring
example shape (None, ) of the source. -/
def tupleItem : SpecItem :=
  ⟨PyVal.str "x", PyVal.str "float32", PyVal.tuple [PyVal.none]⟩

/-! Claim theorems. -/

/-- C6: a dimension is accepted exactly when it is None, a string label,
or a positive non-boolean integer; a rejected dimension raises
InvalidDimension; the shape entries None, batch, 5 are all accepted;
booleans pass the Python integer test yet are rejected, as are zero,
negative integers and floats. -/
theorem dimension_acceptance :
    (∀ d : PyVal, dimOk d = true ↔
        (d = PyVal.none ∨ (∃ s, d = PyVal.str s)
          ∨ (∃ n : Int, d = PyVal.int n ∧ 0 < n)))
    ∧ (∀ (d : PyVal) (ds : List PyVal), dimOk d = false →
        validateDims (d :: ds) = .error (.invalidDimension d))
    ∧ validateDims [PyVal.none, PyVal.str "batch", PyVal.int 5] = .ok ()
    ∧ pyIsInt (PyVal.bool true) = true
    ∧ dimOk (PyVal.bool true) = false
    ∧ dimOk (PyVal.int 0) = false
    ∧ dimOk (PyVal.int (-3)) = false
    ∧ dimOk (PyVal.float (5 : ℚ)) = false := by
  refine ⟨?_, ?_, rfl, rfl, rfl, rfl, rfl, rfl⟩
  · intro d
    cases d <;> simp [dimOk, pyIsNone, pyIsBool, pyIsInt, pyGtZero, pyIsStr]
  · intro d ds h
    simp [validateDims, h]

/-- Witness for C6: the rejection branch applied to a boolean dimension. -/
theorem dimension_acceptance_witness :
    validateDims [PyVal.bool true] = .error (.invalidDimension (PyVal.bool true)) :=
  dimension_acceptance.2.1 (PyVal.bool true) [] rfl

/-- C8: an item whose dtype is not one of the twelve allowed names is
rejected with InvalidDtype, and the dtype test passes exactly when the
dtype is a string belonging to ALLOWED_DTYPES. -/
theorem dtype_membership :
    ∀ (item : SpecItem) (rest : List SpecItem),
      (pyInStrList item.dtype ALLOWED_DTYPES = false →
          validate_tensor_spec (item :: rest) = .error (.invalidDtype item.dtype))
      ∧ (pyInStrList item.dtype ALLOWED_DTYPES = true ↔
          ∃ s, item.dtype = PyVal.str s ∧ s ∈ ALLOWED_DTYPES) := by
  intro item rest
  constructor
  · intro h
    exact vts_cons_err (by simp [validateItem, h])
  · cases hd : item.dtype with
    | str s =>
        simp only [pyInStrList]
        constructor
        · intro h
          exact ⟨s, rfl, List.mem_of_elem_eq_true h⟩
        · rintro ⟨s2, hs2, hmem⟩
          injection hs2 with hs2
          rw [hs2]
          exact List.elem_eq_true_of_mem hmem
    | none => simp [pyInStrList]
    | bool b => simp [pyInStrList]
    | int n => simp [pyInStrList]
    | float q => simp [pyInStrList]
    | list xs => simp [pyInStrList]
    | tuple xs => simp [pyInStrList]

/-- Witness for C8: dtype float16 is rejected with InvalidDtype. -/
theorem dtype_membership_witness :
    validate_tensor_spec [⟨PyVal.str "x", PyVal.str "float16", PyVal.list []⟩]
      = .error (.invalidDtype (PyVal.str "float16")) :=
  (dtype_membership ⟨PyVal.str "x", PyVal.str "float16", PyVal.list []⟩ []).1 rfl

/-- C9: the empty spec sequence validates, and a config with string name
and platform and empty input and output specs passes the config
validator. -/
theorem empty_spec_valid :
    validate_tensor_spec ([] : List SpecItem) = .ok ()
    ∧ ∀ (n p : String),
        validate_neuropod_config ⟨PyVal.str n, PyVal.str p, [], []⟩ = .ok () := by
  refine ⟨rfl, ?_⟩
  intro n p
  rfl

/-- C7: validation is fail-fast in sequence order: a valid prefix is
skipped without affecting the outcome, and within one item the checks
run in the fixed order dtype, name, shape type, dimensions — an item
with several violations reports the earliest one. -/
theorem validate_fail_fast :
    (∀ pre post : List SpecItem, validate_tensor_spec pre = .ok () →
        validate_tensor_spec (pre ++ post) = validate_tensor_spec post)
    ∧ (∀ (item : SpecItem) (rest : List SpecItem),
        pyInStrList item.dtype ALLOWED_DTYPES = false →
        validate_tensor_spec (item :: rest) = .error (.invalidDtype item.dtype))
    ∧ (∀ (item : SpecItem) (rest : List SpecItem),
        pyInStrList item.dtype ALLOWED_DTYPES = true →
        pyIsStr item.name = false →
        validate_tensor_spec (item :: rest)
          = .error (.invalidFieldType "name" item.name))
    ∧ (∀ (item : SpecItem) (rest : List SpecItem),
        pyInStrList item.dtype ALLOWED_DTYPES = true →
        pyIsStr item.name = true →
        pyIsSeq item.shape = false →
        validate_tensor_spec (item :: rest)
          = .error (.invalidFieldType "shape" item.shape)) := by
  refine ⟨fun pre post h => vts_append post h, ?_, ?_, ?_⟩
  · intro item rest h
    exact vts_cons_err (by simp [validateItem, h])
  · intro item rest h1 h2
    exact vts_cons_err (by simp [validateItem, h1, h2])
  · intro item rest h1 h2 h3
    apply vts_cons_err
    obtain ⟨nm, dt, sh⟩ := item
    cases sh with
    | list ds => exact nomatch h3
    | tuple ds => exact nomatch h3
    | none => simp [validateItem, h1, h2]
    | bool b => simp [validateItem, h1, h2]
    | int n => simp [validateItem, h1, h2]
    | float q => simp [validateItem, h1, h2]
    | str s => simp [validateItem, h1, h2]

/-- Witness for C7: after a valid first item, a second item that has an
invalid dtype, an invalid name and an invalid shape at once reports the
dtype error. -/
theorem validate_fail_fast_witness :
    validate_tensor_spec [sampleItem, ⟨PyVal.int 7, PyVal.str "float16", PyVal.int 3⟩]
      = .error (.invalidDtype (PyVal.str "float16")) := by
  show validate_tensor_spec ([sampleItem] ++ [⟨PyVal.int 7, PyVal.str "float16", PyVal.int 3⟩]) = _
  exact (validate_fail_fast.1 [sampleItem] [⟨PyVal.int 7, PyVal.str "float16", PyVal.int 3⟩] rfl).trans
    (validate_fail_fast.2.1 ⟨PyVal.int 7, PyVal.str "float16", PyVal.int 3⟩ [] rfl)

/-! Unfolding lemmas for the canonicalizer. -/

/-- Generic reduction of an Except bind on a success. -/
lemma except_bind_ok_val {e a b : Type} (x : a) (f : a → Except e b) :
    Except.bind (Except.ok x) f = f x := rfl

/-- Generic reduction of an Except bind on an error. -/
lemma except_bind_err_val {e a b : Type} (x : e) (f : a → Except e b) :
    Except.bind (Except.error x) f = Except.error x := rfl

/-- Unfolding of canonicalize_tensor_spec on an item whose dtype numpy
resolves. -/
lemma cts_cons_resolved {it : SpecItem} {s : String}
    (hdt : npDtypeName it.dtype = some s) (rest : List SpecItem) :
    canonicalize_tensor_spec (it :: rest)
      = Except.bind (canonicalize_tensor_spec rest)
          (fun rest2 =>
            Except.ok (({ name := it.name, dtype := PyVal.str s,
                          shape := it.shape } : SpecItem) :: rest2)) := by
  simp only [canonicalize_tensor_spec]
  rw [hdt]
  rfl

/-- Unfolding of canonicalize_tensor_spec on an item whose dtype numpy
cannot resolve. -/
lemma cts_cons_unresolved {it : SpecItem}
    (hdt : npDtypeName it.dtype = Option.none) (rest : List SpecItem) :
    canonicalize_tensor_spec (it :: rest) = .error (.unrecognizedDtype it.dtype) := by
  simp only [canonicalize_tensor_spec]
  rw [hdt]

/-- An allowed dtype name resolves to itself. -/
lemma npDtypeName_allowed {s : String} (h : s ∈ ALLOWED_DTYPES) :
    npDtypeName (PyVal.str s) = some s := by
  simp only [npDtypeName]
  rw [if_pos (show ALLOWED_DTYPES.contains s = true from List.elem_eq_true_of_mem h)]

/-- C3: the canonicalizer is the identity on the twelve canonical dtype
names, including string, so it is idempotent; a spec sequence whose
dtypes are all canonical is canonicalized to itself. -/
theorem canonicalize_canonical_identity :
    (∀ s : String, s ∈ ALLOWED_DTYPES → canonicalize_dtype s = .ok s)
    ∧ (∀ spec : List SpecItem,
        (∀ it ∈ spec, ∃ s, it.dtype = PyVal.str s ∧ s ∈ ALLOWED_DTYPES) →
        canonicalize_tensor_spec spec = .ok spec) := by
  constructor
  · intro s h
    unfold canonicalize_dtype
    rw [npDtypeName_allowed h]
  · intro spec
    induction spec with
    | nil => intro _; rfl
    | cons it rest ih =>
        intro h
        obtain ⟨s, hdt, hs⟩ := h it (by simp)
        have hres : npDtypeName it.dtype = some s := by
          rw [hdt]
          exact npDtypeName_allowed hs
        have hrest := ih (fun a ha => h a (by simp [ha]))
        rw [cts_cons_resolved hres rest, hrest, except_bind_ok_val, ← hdt]

/-- Witness for C3: the name string canonicalizes to itself, and a spec
with canonical dtypes is returned unchanged. -/
theorem canonicalize_canonical_identity_witness :
    canonicalize_dtype "string" = .ok "string"
    ∧ canonicalize_tensor_spec [⟨PyVal.str "x", PyVal.str "int64", PyVal.tuple [PyVal.none]⟩]
        = .ok [⟨PyVal.str "x", PyVal.str "int64", PyVal.tuple [PyVal.none]⟩] := by
  constructor
  · exact canonicalize_canonical_identity.1 "string" (by decide)
  · refine canonicalize_canonical_identity.2 _ ?_
    intro it hit
    rw [List.mem_singleton] at hit
    subst hit
    exact ⟨"int64", rfl, by decide⟩

/-- C10: canonicalize_tensor_spec only rewrites dtypes: on success the
output has the same length and, item by item, the same name and the same
shape as the input. Being a pure function of the embedding, it leaves
its input unchanged by construction. -/
theorem canonicalize_preserves_name_shape :
    ∀ (spec out : List SpecItem), canonicalize_tensor_spec spec = .ok out →
      out.length = spec.length
      ∧ List.Forall₂ (fun a b => b.name = a.name ∧ b.shape = a.shape) spec out := by
  intro spec
  induction spec with
  | nil =>
      intro out h
      unfold canonicalize_tensor_spec at h
      injection h with h
      subst h
      exact ⟨rfl, List.Forall₂.nil⟩
  | cons it rest ih =>
      intro out h
      cases hdt : npDtypeName it.dtype with
      | none =>
          rw [cts_cons_unresolved hdt] at h
          exact nomatch h
      | some s =>
          rw [cts_cons_resolved hdt] at h
          cases hr : canonicalize_tensor_spec rest with
          | error e =>
              rw [hr, except_bind_err_val] at h
              exact nomatch h
          | ok rest2 =>
              rw [hr, except_bind_ok_val] at h
              injection h with h
              subst h
              obtain ⟨ihl, ihf⟩ := ih rest2 hr
              exact ⟨by simp [ihl], List.Forall₂.cons ⟨rfl, rfl⟩ ihf⟩

/-- Witness for C10: canonicalizing a spec item with dtype double keeps
its name and tuple shape and only rewrites the dtype to float64. -/
theorem canonicalize_preserves_name_shape_witness :
    ([⟨PyVal.str "x", PyVal.str "float64", PyVal.tuple [PyVal.int 2]⟩] : List SpecItem).length
        = ([⟨PyVal.str "x", PyVal.str "double", PyVal.tuple [PyVal.int 2]⟩] : List SpecItem).length
    ∧ List.Forall₂ (fun (a b : SpecItem) => b.name = a.name ∧ b.shape = a.shape)
        [⟨PyVal.str "x", PyVal.str "double", PyVal.tuple [PyVal.int 2]⟩]
        [⟨PyVal.str "x", PyVal.str "float64", PyVal.tuple [PyVal.int 2]⟩] :=
  canonicalize_preserves_name_shape
    [⟨PyVal.str "x", PyVal.str "double", PyVal.tuple [PyVal.int 2]⟩]
    [⟨PyVal.str "x", PyVal.str "float64", PyVal.tuple [PyVal.int 2]⟩] rfl

/-- C2 counterexample: the name float16 is resolved by numpy, so the
canonicalizer returns it unchanged without failing, although it is not a
member of the twelve-element canonical set. -/
theorem canonicalize_dtype_counterexample :
    canonicalize_dtype "float16" = .ok "float16"
    ∧ "float16" ∉ ALLOWED_DTYPES
    ∧ canonicalize_tensor_spec [⟨PyVal.str "x", PyVal.str "float16", PyVal.list []⟩]
        = .ok [⟨PyVal.str "x", PyVal.str "float16", PyVal.list []⟩] :=
  ⟨rfl, by decide, rfl⟩

/-- C2 amended: canonicalize either returns the numpy canonical name of
its argument — a set that strictly contains the twelve allowed names,
float16 and bool among the extras — or fails with UnrecognizedDtype when
numpy cannot resolve the name; membership in ALLOWED_DTYPES is enforced
by the validator, not by the canonicalizer. -/
theorem canonicalize_dtype_range :
    (∀ s nm, canonicalize_dtype s = .ok nm → nm ∈ npCanonicalNames)
    ∧ (∀ s, npDtypeName (PyVal.str s) = Option.none →
        canonicalize_dtype s = .error (.unrecognizedDtype (PyVal.str s))) := by
  constructor
  · intro s nm h
    simp only [canonicalize_dtype, npDtypeName] at h
    split_ifs at h with h1 h2 h3 h4 h5
    · simp at h
      rw [← h]
      exact List.mem_append_left _ (List.mem_of_elem_eq_true h1)
    · simp at h
      rw [← h]
      decide
    · simp at h
      rw [← h]
      decide
    · simp at h
      rw [← h]
      decide
    · simp at h
      rw [← h]
      decide
  · intro s h
    simp only [canonicalize_dtype]
    rw [h]

/-- Witness for C2 amended: double resolves to float64 inside the numpy
range, and an unknown name fails with UnrecognizedDtype. -/
theorem canonicalize_dtype_range_witness :
    "float64" ∈ npCanonicalNames
    ∧ canonicalize_dtype "garbage" = .error (.unrecognizedDtype (PyVal.str "garbage")) :=
  ⟨canonicalize_dtype_range.1 "double" "float64" rfl,
   canonicalize_dtype_range.2 "garbage" rfl⟩

/-- C5 counterexample: the validator only checks that name and platform
are strings, not that they are non-empty: a config with an empty name or
an empty platform is accepted. -/
theorem validate_config_empty_name_counterexample :
    validate_neuropod_config ⟨PyVal.str "", PyVal.str "python", [], []⟩ = .ok ()
    ∧ validate_neuropod_config ⟨PyVal.str "m", PyVal.str "", [], []⟩ = .ok () :=
  ⟨rfl, rfl⟩

/-- C5 amended: the config validator accepts only configs whose name and
platform are strings — empty strings included, non-emptiness is not
checked — and a non-string name or platform is rejected with the
corresponding field-type error whatever the spec sequences contain, the
name being checked before the platform and both before the specs. -/
theorem validate_config_string_fields :
    (∀ c : Config, pyIsStr c.name = false →
        validate_neuropod_config c = .error (.invalidFieldType "name" c.name))
    ∧ (∀ c : Config, pyIsStr c.name = true → pyIsStr c.platform = false →
        validate_neuropod_config c = .error (.invalidFieldType "platform" c.platform))
    ∧ (∀ (c : Config) (u : Unit), validate_neuropod_config c = .ok u →
        pyIsStr c.name = true ∧ pyIsStr c.platform = true) := by
  refine ⟨?_, ?_, ?_⟩
  · intro c h
    simp [validate_neuropod_config, h]
  · intro c h1 h2
    simp [validate_neuropod_config, h1, h2]
  · intro c u h
    cases u
    have hc := (validate_config_ok_iff c).1 h
    exact ⟨hc.1, hc.2.1⟩

/-- Witness for C5 amended: a numeric name and a None platform are each
rejected with the matching field-type error, with arbitrary specs left
unexamined. -/
theorem validate_config_string_fields_witness :
    validate_neuropod_config ⟨PyVal.int 123, PyVal.str "python", [], []⟩
        = .error (.invalidFieldType "name" (PyVal.int 123))
    ∧ validate_neuropod_config
          ⟨PyVal.str "m", PyVal.none, [⟨PyVal.int 0, PyVal.int 0, PyVal.int 0⟩], []⟩
        = .error (.invalidFieldType "platform" PyVal.none) :=
  ⟨validate_config_string_fields.1 ⟨PyVal.int 123, PyVal.str "python", [], []⟩ rfl,
   validate_config_string_fields.2.1
     ⟨PyVal.str "m", PyVal.none, [⟨PyVal.int 0, PyVal.int 0, PyVal.int 0⟩], []⟩ rfl rfl⟩

/-- C1 counterexample: write with a non-string model name does raise the
name field-type error, but only after config.json has been opened in
write mode: a pre-existing config.json is truncated to empty rather than
left unchanged, and a previously missing one is created empty. -/
theorem write_nonstring_name_counterexample :
    (write_neuropod_config (FileState.content sampleConfig) (PyVal.int 123)
        (PyVal.str "python") [sampleItem] [sampleItem]).2
      = .error (.invalidFieldType "name" (PyVal.int 123))
    ∧ (write_neuropod_config (FileState.content sampleConfig) (PyVal.int 123)
        (PyVal.str "python") [sampleItem] [sampleItem]).1
      = FileState.empty
    ∧ FileState.empty ≠ FileState.content sampleConfig
    ∧ (write_neuropod_config FileState.absent (PyVal.int 123)
        (PyVal.str "python") [sampleItem] [sampleItem]).1
      ≠ FileState.absent := by
  refine ⟨rfl, rfl, by decide, by decide⟩

/-- C1 amended: when both spec sequences canonicalize, a write with a
non-string model name fails with the name field-type error before any
content is written, but the open in write mode has already truncated
config.json: the file is left created and empty regardless of its prior
state. -/
theorem write_nonstring_name :
    ∀ (fs : FileState) (model_name platform : PyVal)
      (input_spec output_spec ci co : List SpecItem),
      pyIsStr model_name = false →
      canonicalize_tensor_spec input_spec = .ok ci →
      canonicalize_tensor_spec output_spec = .ok co →
      write_neuropod_config fs model_name platform input_spec output_spec
        = (FileState.empty, .error (.invalidFieldType "name" model_name)) := by
  intro fs model_name platform ispec ospec ci co hname hci hco
  unfold write_neuropod_config
  rw [hci, hco]
  simp [validate_neuropod_config, hname]

/-- Witness for C1 amended: the integer model name 123 with canonical
specs. -/
theorem write_nonstring_name_witness :
    write_neuropod_config FileState.absent (PyVal.int 123) (PyVal.str "python")
        [sampleItem] [sampleItem]
      = (FileState.empty, .error (.invalidFieldType "name" (PyVal.int 123))) :=
  write_nonstring_name FileState.absent (PyVal.int 123) (PyVal.str "python")
    [sampleItem] [sampleItem] [sampleItem] [sampleItem] rfl rfl rfl

/-- Map of jsonRTItem over a list on which it is the identity. -/
lemma map_jsonRTItem_id {s : List SpecItem} (h : ∀ it ∈ s, jsonRTItem it = it) :
    s.map jsonRTItem = s := by
  induction s with
  | nil => rfl
  | cons a t ih =>
      rw [List.map_cons, h a (by simp), ih (fun b hb => h b (by simp [hb]))]

/-- C4 counterexample: the docstring example shape is a tuple; writing a
valid config with a tuple shape and reading it back yields the shape as
a list, so the result is not equal to the canonicalized input config,
whose shape is still a tuple. -/
theorem roundtrip_counterexample :
    canonicalize_tensor_spec [tupleItem] = .ok [tupleItem]
    ∧ (write_neuropod_config FileState.absent (PyVal.str "m") (PyVal.str "python")
        [tupleItem] []).2 = .ok ()
    ∧ read_neuropod_config (write_neuropod_config FileState.absent (PyVal.str "m")
          (PyVal.str "python") [tupleItem] []).1
        = .ok ⟨PyVal.str "m", PyVal.str "python",
            [⟨PyVal.str "x", PyVal.str "float32", PyVal.list [PyVal.none]⟩], []⟩
    ∧ (⟨PyVal.str "m", PyVal.str "python",
          [⟨PyVal.str "x", PyVal.str "float32", PyVal.list [PyVal.none]⟩], []⟩ : Config)
        ≠ ⟨PyVal.str "m", PyVal.str "python", [tupleItem], []⟩ :=
  ⟨rfl, rfl, rfl, by decide⟩

/-- C4 amended: for a writable config — both spec sequences canonicalize
and the canonicalized config validates — reading back the written file
returns exactly the JSON image of the canonicalized config: name,
platform, item names, dtypes and dimensions unchanged, every shape
container rendered as a list; when every canonicalized shape is already
a list, the round trip returns the canonicalized config itself. -/
theorem write_read_roundtrip :
    ∀ (fs : FileState) (nm pf : PyVal) (ispec ospec ci co : List SpecItem),
      canonicalize_tensor_spec ispec = .ok ci →
      canonicalize_tensor_spec ospec = .ok co →
      validate_neuropod_config ⟨nm, pf, ci, co⟩ = .ok () →
      (write_neuropod_config fs nm pf ispec ospec).1
          = FileState.content (jsonRTConfig ⟨nm, pf, ci, co⟩)
      ∧ read_neuropod_config (write_neuropod_config fs nm pf ispec ospec).1
          = .ok (jsonRTConfig ⟨nm, pf, ci, co⟩)
      ∧ ((∀ it ∈ ci, ∃ ds, it.shape = PyVal.list ds) →
         (∀ it ∈ co, ∃ ds, it.shape = PyVal.list ds) →
         jsonRTConfig ⟨nm, pf, ci, co⟩ = ⟨nm, pf, ci, co⟩) := by
  intro fs nm pf ispec ospec ci co hci hco hv
  have hw : write_neuropod_config fs nm pf ispec ospec
      = (FileState.content (jsonRTConfig ⟨nm, pf, ci, co⟩), .ok ()) := by
    unfold write_neuropod_config
    rw [hci, hco]
    simp [hv]
  refine ⟨by rw [hw], ?_, ?_⟩
  · rw [hw]
    show read_neuropod_config (FileState.content (jsonRTConfig ⟨nm, pf, ci, co⟩)) = _
    simp only [read_neuropod_config]
    rw [validate_config_jsonRT hv]
  · intro hl1 hl2
    have hc := (validate_config_ok_iff _).1 hv
    have h1 : pyIsStr nm = true := hc.1
    have h2 : pyIsStr pf = true := hc.2.1
    have h3 : validate_tensor_spec ci = .ok () := hc.2.2.1
    have h4 : validate_tensor_spec co = .ok () := hc.2.2.2
    show Config.mk (jsonRT nm) (jsonRT pf) (ci.map jsonRTItem) (co.map jsonRTItem)
        = Config.mk nm pf ci co
    rw [jsonRT_of_str h1, jsonRT_of_str h2,
      map_jsonRTItem_id (fun it hit => jsonRTItem_id ((vts_ok_iff ci).1 h3 it hit) (hl1 it hit)),
      map_jsonRTItem_id (fun it hit => jsonRTItem_id ((vts_ok_iff co).1 h4 it hit) (hl2 it hit))]

/-- Witness for C4 amended: a config with a list shape and the alias
dtype double round-trips to its canonicalized form exactly. -/
theorem write_read_roundtrip_witness :
    read_neuropod_config (write_neuropod_config FileState.absent (PyVal.str "m")
        (PyVal.str "python")
        [⟨PyVal.str "x", PyVal.str "double", PyVal.list [PyVal.none]⟩] []).1
      = .ok ⟨PyVal.str "m", PyVal.str "python",
          [⟨PyVal.str "x", PyVal.str "float64", PyVal.list [PyVal.none]⟩], []⟩ := by
  have h := write_read_roundtrip FileState.absent (PyVal.str "m") (PyVal.str "python")
    [⟨PyVal.str "x", PyVal.str "double", PyVal.list [PyVal.none]⟩] []
    [⟨PyVal.str "x", PyVal.str "float64", PyVal.list [PyVal.none]⟩] [] rfl rfl rfl
  have hl1 : ∀ it ∈ [(⟨PyVal.str "x", PyVal.str "float64", PyVal.list [PyVal.none]⟩ : SpecItem)],
      ∃ ds, it.shape = PyVal.list ds := by
    intro it hit
    rw [List.mem_singleton] at hit
    subst hit
    exact ⟨[PyVal.none], rfl⟩
  have hl2 : ∀ it ∈ ([] : List SpecItem), ∃ ds, it.shape = PyVal.list ds :=
    fun it hit => absurd hit (List.not_mem_nil it)
  rw [h.2.1, h.2.2 hl1 hl2]

end Neuropod
